import Mathlib

/-!
Verification of the client-side job-lifecycle logic of src/static/script.js
(flask-app repository).  The JavaScript file is shallowly embedded: DOM
element contents and control enablement become fields of an explicit state
record, the two timers become explicit poller states, network outcomes
become inductive parameters of the handlers, and JavaScript numbers that may
be NaN become Option-valued rationals.
-/

namespace FlaskApp

/-! ## Poller: the statusInterval timer handle

script.js lines 12-41.  A PollerState carries the current value of the
statusInterval variable (none models null/undefined), the list of interval
ids that are currently live (armed and not cleared), and a counter supplying
fresh ids for setInterval.  Browser interval ids are positive, so the
JavaScript truthiness test on statusInterval is modelled by isSome. -/

structure PollerState where
  statusInterval : Option Nat
  live : List Nat
  next : Nat
  deriving Repr, DecidableEq

/-- Effect of clearInterval(h) on the live-timer list; clearInterval of
null/undefined is a no-op. -/
def clearIntervalOn (l : List Nat) : Option Nat → List Nat
  | none => l
  | some h => l.erase h

/-- script.js startPollingStatus, lines 14-16 as far as timer management is
concerned: if (statusInterval) clearInterval(statusInterval); then
statusInterval = setInterval(..., 2000). -/
def startPollingStatus (p : PollerState) : PollerState :=
  let cleared := match p.statusInterval with
    | some h => p.live.erase h
    | none => p.live
  { statusInterval := some p.next, live := cleared ++ [p.next], next := p.next + 1 }

/-- script.js stopPollingStatus, lines 38-41:
clearInterval(statusInterval); statusInterval = null. -/
def stopPollingStatus (p : PollerState) : PollerState :=
  { p with statusInterval := none, live := clearIntervalOn p.live p.statusInterval }

/-- Operations an external caller can perform on the poller. -/
inductive PollerOp
  | start
  | stop
  deriving Repr, DecidableEq

def applyPollerOp (p : PollerState) : PollerOp → PollerState
  | .start => startPollingStatus p
  | .stop => stopPollingStatus p

/-- Page-load poller state: statusInterval is undefined, no timer is live. -/
def pollerInit : PollerState := { statusInterval := none, live := [], next := 1 }

/-- Poller state after a sequence of start/stop calls from page load. -/
def runPollerOps (ops : List PollerOp) : PollerState :=
  ops.foldl applyPollerOp pollerInit

/-- The live-timer list is exactly the timer recorded in statusInterval. -/
def pollerInv (p : PollerState) : Prop := p.live = p.statusInterval.toList

/-! ## StatusSnapshot and rendering

script.js lines 43-56 (updateUI) and the /status response shape. -/

/-- One polled /status response.  Progress fields are none when the JSON
field is absent or not a number (JavaScript NaN after multiplication);
results_df is the length of the optional results_df array (none = absent). -/
structure StatusSnapshot where
  status_message : String
  link_collection_progress : Option ℚ
  detail_scraping_progress : Option ℚ
  link_count : Int
  scraped_count : Int
  total_to_scrape : Int
  scraping_active : Bool
  results_df : Option Nat
  deriving Repr

/-- Number.prototype.toFixed(1) on an exact rational: sign of x, then the
nonnegative magnitude rounded to the nearest tenth, ties toward the larger
integer, printed with exactly one fraction digit. -/
def jsToFixed1 (x : ℚ) : String :=
  let neg := x.num < 0
  let y := if neg then -x else x
  let n : Int := Rat.floor (10 * y + 1 / 2)
  (if neg then "-" else "") ++ toString (n.natAbs / 10) ++ "." ++ toString (n.natAbs % 10)

/-- The string assigned to the progress bar for a given progress field:
(value * 100).toFixed(1), where a missing/non-numeric value propagates as
NaN and toFixed renders NaN as "NaN". -/
def percentString : Option ℚ → String
  | none => "NaN"
  | some q => jsToFixed1 (q * 100)

/-- One rendered row of the results table: the five td cell contents. -/
structure RenderedRow where
  nameCell : String
  addressCell : String
  websiteCell : String
  emailCell : String
  categoryCell : String
  deriving Repr, DecidableEq

/-- The mutable page state script.js touches: the three buttons' disabled
flags, the text/width of the rendered elements, the results table body and
the poller. -/
structure AppState where
  startDisabled : Bool
  stopDisabled : Bool
  downloadDisabled : Bool
  statusMessage : String
  linkBarWidth : String
  linkBarText : String
  detailBarWidth : String
  detailBarText : String
  linksFoundText : String
  scrapedCountText : String
  resultsRows : List RenderedRow
  poller : PollerState
  deriving Repr, DecidableEq

/-- script.js updateUI, lines 43-56: render status message, both progress
bars (width and label from the same computed string), link count and the
"scraped / total" text.  No button or table mutation. -/
def updateUI (data : StatusSnapshot) (s : AppState) : AppState :=
  let lp := percentString data.link_collection_progress
  let dp := percentString data.detail_scraping_progress
  { s with
    statusMessage := data.status_message
    linkBarWidth := lp ++ "%"
    linkBarText := lp ++ "%"
    detailBarWidth := dp ++ "%"
    detailBarText := dp ++ "%"
    linksFoundText := toString data.link_count
    scrapedCountText := toString data.scraped_count ++ " / " ++ toString data.total_to_scrape }

/-- The condition on line 26: data.results_df && data.results_df.length > 0
(an absent results_df is falsy; an empty array is truthy but fails the
length test). -/
def snapshotHasResults (data : StatusSnapshot) : Bool :=
  match data.results_df with
  | none => false
  | some n => decide (0 < n)

/-- One successful poll tick (fetch and json both succeeded), script.js
lines 17-29: updateUI, then the termination check gated on
!data.scraping_active && startButton.disabled. -/
def pollTickOk (data : StatusSnapshot) (s : AppState) : AppState :=
  let s := updateUI data s
  if !data.scraping_active && s.startDisabled then
    let s := { s with
      poller := stopPollingStatus s.poller
      startDisabled := false
      stopDisabled := true }
    if snapshotHasResults data then { s with downloadDisabled := false } else s
  else s

/-- One failed poll tick (fetch or json threw), script.js lines 30-34:
error message, polling stopped, controls untouched. -/
def pollTickErr (s : AppState) : AppState :=
  { s with
    statusMessage := "Error connecting to server. Polling stopped."
    poller := stopPollingStatus s.poller }

/-! ## Result Fetcher

script.js lines 58-80 (fetchAndDisplayResults, scheduled every 10000 ms). -/

/-- One /get-results record; every field is optional. -/
structure ResultRecord where
  name : Option String
  address : Option String
  website : Option String
  finalEmail : Option String
  category : Option String
  deriving Repr, DecidableEq

/-- JavaScript value || two-quote empty string on an optional string field:
null/undefined and the empty string both render as the empty string. -/
def jsOrEmpty : Option String → String
  | none => ""
  | some s => s

/-- The Website cell: a link when item.Website is truthy, else empty. -/
def renderWebsite : Option String → String
  | none => ""
  | some w =>
    if w = "" then ""
    else "<a href=\"" ++ w ++ "\" target=\"_blank\">" ++ w ++ "</a>"

/-- Lines 64-71: build one table row from a record. -/
def renderRow (item : ResultRecord) : RenderedRow :=
  { nameCell := jsOrEmpty item.name
    addressCell := jsOrEmpty item.address
    websiteCell := renderWebsite item.website
    emailCell := jsOrEmpty item.finalEmail
    categoryCell := jsOrEmpty item.category }

/-- One Result Fetcher tick.  The outcome parameter is none when the fetch
or the JSON parse threw (the catch on lines 77-79 only logs), and some
results when both succeeded; only then is the table body cleared and
repopulated, and the download button enabled when the set is non-empty. -/
def fetchResultsTick (outcome : Option (List ResultRecord)) (s : AppState) : AppState :=
  match outcome with
  | none => s
  | some results =>
    let s := { s with resultsRows := results.map renderRow }
    if 0 < results.length then { s with downloadDisabled := false } else s

/-! ## Job Controller: the start and stop click handlers

script.js lines 82-131. -/

/-- The raw value properties of the eight form inputs read on lines 84-91. -/
structure FormValues where
  generalSearchTerm : String
  categories : String
  zipcodes : String
  maxWorkers : String
  maxScrolls : String
  scrollPause : String
  scrapeTimeout : String
  headlessMode : String
  deriving Repr, DecidableEq

def digitsVal (ds : List Char) : Nat :=
  ds.foldl (fun n c => 10 * n + (c.toNat - 48)) 0

/-- Leading base-10 digit run of a character list; none when it is empty. -/
def leadingDigits (cs : List Char) : Option Nat :=
  let ds := cs.takeWhile Char.isDigit
  if ds.isEmpty then none else some (digitsVal ds)

/-- Model of the JavaScript parseInt builtin as used here (no explicit
radix, decimal inputs): skip leading whitespace, optional sign, then the
leading digit run; none models NaN.  Hex and exponent forms are not
modelled because the claims only exercise decimal and non-numeric text. -/
def jsParseInt (s : String) : Option Int :=
  match s.toList.dropWhile Char.isWhitespace with
  | '-' :: rest => (leadingDigits rest).map (fun n => -(n : Int))
  | '+' :: rest => (leadingDigits rest).map (fun n => (n : Int))
  | rest => (leadingDigits rest).map (fun n => (n : Int))

/-- Integer-dot-fraction part of parseFloat; none when no digit occurs. -/
def leadingDecimal (cs : List Char) : Option ℚ :=
  let intDs := cs.takeWhile Char.isDigit
  let rest := cs.drop intDs.length
  let fracDs := match rest with
    | '.' :: r => r.takeWhile Char.isDigit
    | _ => []
  if intDs.isEmpty && fracDs.isEmpty then none
  else some ((digitsVal intDs : ℚ) + (digitsVal fracDs : ℚ) / (10 : ℚ) ^ fracDs.length)

/-- Model of the JavaScript parseFloat builtin: skip leading whitespace,
optional sign, digits with an optional fraction part; none models NaN.
Exponent notation is not modelled. -/
def jsParseFloat (s : String) : Option ℚ :=
  match s.toList.dropWhile Char.isWhitespace with
  | '-' :: rest => (leadingDecimal rest).map (fun q => -q)
  | '+' :: rest => leadingDecimal rest
  | rest => leadingDecimal rest

/-- The request body built on lines 83-92.  Numeric fields are none when
the corresponding parse produced NaN. -/
structure JobConfig where
  general_search_term : String
  categories : List String
  zipcodes : List String
  max_workers : Option Int
  max_scrolls : Option Int
  scroll_pause : Option ℚ
  scrape_timeout : Option Int
  headless_mode : Bool
  deriving Repr, DecidableEq

/-- Lines 83-92: split categories on commas and zipcodes on newlines, trim
each entry, drop falsy (empty) entries, parse the four numeric fields, and
compare the headless select value against the literal string true. -/
def buildConfig (f : FormValues) : JobConfig :=
  { general_search_term := f.generalSearchTerm
    categories := ((f.categories.splitOn ",").map String.trim).filter (fun c => c ≠ "")
    zipcodes := ((f.zipcodes.splitOn "\n").map String.trim).filter (fun z => z ≠ "")
    max_workers := jsParseInt f.maxWorkers
    max_scrolls := jsParseInt f.maxScrolls
    scroll_pause := jsParseFloat f.scrollPause
    scrape_timeout := jsParseInt f.scrapeTimeout
    headless_mode := decide (f.headlessMode = "true") }

/-- Outcome of the /start-scraping round trip: accepted is an ok response
whose JSON parsed, rejected is a non-ok response whose JSON parsed, and
transportError is a thrown fetch or JSON parse (the catch on line 113). -/
inductive StartOutcome
  | accepted (message : String)
  | rejected (message : String)
  | transportError
  deriving Repr, DecidableEq

/-- Result of a start click: the final page state plus the body of the
POST /start-scraping request the handler issued. -/
structure StartClickResult where
  state : AppState
  requestBody : Option JobConfig
  deriving Repr, DecidableEq

/-- Lines 94-97, executed before the fetch on line 100: disable start,
enable stop, disable download, clear the results table body. -/
def startClickPre (s : AppState) : AppState :=
  { s with
    startDisabled := true
    stopDisabled := false
    downloadDisabled := true
    resultsRows := [] }

/-- The whole start click handler, lines 82-119.  The fetch on line 100 is
issued unconditionally with the config built on lines 83-92; afterwards the
response message is rendered and either the poller starts (response.ok) or
the start/stop buttons are rolled back (non-ok response, or the catch with
its generic message). -/
def startClick (f : FormValues) (outcome : StartOutcome) (s : AppState) : StartClickResult :=
  let cfg := buildConfig f
  let s := startClickPre s
  match outcome with
  | .accepted msg =>
    { state := { s with
        statusMessage := msg
        poller := startPollingStatus s.poller }
      requestBody := some cfg }
  | .rejected msg =>
    { state := { s with
        statusMessage := msg
        startDisabled := false
        stopDisabled := true }
      requestBody := some cfg }
  | .transportError =>
    { state := { s with
        statusMessage := "Failed to start scraping. Check console for errors."
        startDisabled := false
        stopDisabled := true }
      requestBody := some cfg }

/-- Outcome of the /stop-scraping round trip: response covers any HTTP
response whose JSON parsed (the handler never checks response.ok), and
transportError a thrown fetch or JSON parse. -/
inductive StopOutcome
  | response (message : String)
  | transportError
  deriving Repr, DecidableEq

/-- The stop click handler, lines 121-131: on a parsed response render its
message and disable the stop button; in the catch only render the failure
message (the stop button is left as it was). -/
def stopClick (outcome : StopOutcome) (s : AppState) : AppState :=
  match outcome with
  | .response msg =>
    { s with statusMessage := msg, stopDisabled := true }
  | .transportError =>
    { s with statusMessage := "Failed to send stop signal." }

/-! ## Concrete fixtures used by counterexamples and witnesses -/

/-- A concrete page state used as a fixture: the idle page with start
enabled, stop and download disabled, nothing rendered, poller idle. -/
def sampleState : AppState :=
  { startDisabled := false
    stopDisabled := true
    downloadDisabled := true
    statusMessage := ""
    linkBarWidth := ""
    linkBarText := ""
    detailBarWidth := ""
    detailBarText := ""
    linksFoundText := ""
    scrapedCountText := ""
    resultsRows := []
    poller := pollerInit }

/-- The form values of the spec run scenario: search term plumbers,
categories A, B, zipcodes 10001 and 10002, numeric fields filled in. -/
def scenarioFields : FormValues :=
  { generalSearchTerm := "plumbers"
    categories := "A, B"
    zipcodes := "10001\n10002"
    maxWorkers := "4"
    maxScrolls := "10"
    scrollPause := "1.5"
    scrapeTimeout := "60"
    headlessMode := "true" }

/-- Page state right after the scenario start was accepted. -/
def scenarioAfterStart : AppState :=
  (startClick scenarioFields (StartOutcome.accepted "Scraping started") sampleState).state

/-- The second scenario tick snapshot: active false, scraped_count 3, no
other result indication (in particular no results_df field). -/
def scenarioEndSnapshot : StatusSnapshot :=
  { status_message := "Done"
    link_collection_progress := none
    detail_scraping_progress := none
    link_count := 3
    scraped_count := 3
    total_to_scrape := 3
    scraping_active := false
    results_df := none }

/-- A mid-scenario snapshot: job still active. -/
def scenarioMidSnapshot : StatusSnapshot :=
  { status_message := "Collecting links"
    link_collection_progress := some (1 / 2)
    detail_scraping_progress := some 0
    link_count := 12
    scraped_count := 0
    total_to_scrape := 0
    scraping_active := true
    results_df := none }

/-- Form values whose four numeric inputs hold non-numeric text. -/
def nonNumericFields : FormValues :=
  { generalSearchTerm := "plumbers"
    categories := "A, B"
    zipcodes := "10001\n10002"
    maxWorkers := "many"
    maxScrolls := "lots"
    scrollPause := "fast"
    scrapeTimeout := "soon"
    headlessMode := "true" }

/-- Page state while a job is presumed running: start disabled, stop
enabled. -/
def midJobState : AppState :=
  { sampleState with startDisabled := true, stopDisabled := false }

/-! ## Poller invariant lemmas -/

theorem pollerInv_init : pollerInv pollerInit := rfl

theorem pollerInv_start (p : PollerState) (h : pollerInv p) :
    pollerInv (startPollingStatus p) := by
  unfold pollerInv at h ⊢
  unfold startPollingStatus
  cases hi : p.statusInterval with
  | none =>
    rw [hi] at h
    simp [h]
  | some a =>
    rw [hi] at h
    simp [h]

theorem pollerInv_stop (p : PollerState) (h : pollerInv p) :
    pollerInv (stopPollingStatus p) := by
  unfold pollerInv at h ⊢
  unfold stopPollingStatus clearIntervalOn
  cases hi : p.statusInterval with
  | none =>
    rw [hi] at h
    simp [h]
  | some a =>
    rw [hi] at h
    simp [h]

theorem pollerInv_applyOp (p : PollerState) (op : PollerOp) (h : pollerInv p) :
    pollerInv (applyPollerOp p op) := by
  cases op with
  | start => exact pollerInv_start p h
  | stop => exact pollerInv_stop p h

theorem pollerInv_foldl (ops : List PollerOp) :
    ∀ p : PollerState, pollerInv p → pollerInv (ops.foldl applyPollerOp p) := by
  induction ops with
  | nil => intro p h; exact h
  | cons o os ih => intro p h; exact ih _ (pollerInv_applyOp p o h)

theorem pollerInv_run (ops : List PollerOp) : pollerInv (runPollerOps ops) :=
  pollerInv_foldl ops pollerInit pollerInv_init

theorem pollerInv_live_len (p : PollerState) (h : pollerInv p) :
    p.live.length ≤ 1 := by
  unfold pollerInv at h
  rw [h]
  cases p.statusInterval <;> simp

theorem startPollingStatus_live_len (p : PollerState) (h : pollerInv p) :
    (startPollingStatus p).live.length = 1 := by
  have h2 := pollerInv_start p h
  unfold pollerInv at h2
  rw [h2]
  rfl

/-! ## Claim theorems -/

/-- C5: from page load, any sequence of startPollingStatus/stopPollingStatus
calls leaves at most one live polling repetition; calling start twice leaves
exactly one live repetition; and stopPollingStatus is idempotent, safe to
call when already stopped. -/
theorem c5_poller_single_repetition :
    (∀ ops : List PollerOp, (runPollerOps ops).live.length ≤ 1) ∧
    (∀ ops : List PollerOp,
      (startPollingStatus (startPollingStatus (runPollerOps ops))).live.length = 1) ∧
    (∀ p : PollerState, stopPollingStatus (stopPollingStatus p) = stopPollingStatus p) := by
  refine ⟨?_, ?_, ?_⟩
  · intro ops
    exact pollerInv_live_len _ (pollerInv_run ops)
  · intro ops
    exact startPollingStatus_live_len _ (pollerInv_start _ (pollerInv_run ops))
  · intro p
    rfl

/-- C1: on a successful poll tick whose snapshot has scraping_active false,
if the UI is locked (start disabled) the tick stops the Poller, enables
start, disables stop, and changes the download control only by enabling it,
which it does exactly when the snapshot carries a non-empty results_df
(downloadDisabled becomes pre-value AND NOT hasResults); if the UI is
unlocked, the tick changes no control and leaves the Poller alone. -/
theorem c1_termination_teardown (data : StatusSnapshot) (s : AppState)
    (hInactive : data.scraping_active = false) :
    (s.startDisabled = true →
      ((pollTickOk data s).poller = stopPollingStatus s.poller ∧
       (pollTickOk data s).startDisabled = false ∧
       (pollTickOk data s).stopDisabled = true ∧
       (pollTickOk data s).downloadDisabled
         = (s.downloadDisabled && !snapshotHasResults data))) ∧
    (s.startDisabled = false →
      ((pollTickOk data s).startDisabled = s.startDisabled ∧
       (pollTickOk data s).stopDisabled = s.stopDisabled ∧
       (pollTickOk data s).downloadDisabled = s.downloadDisabled ∧
       (pollTickOk data s).poller = s.poller)) := by
  constructor
  · intro hLock
    cases hR : snapshotHasResults data with
    | false =>
      simp [pollTickOk, updateUI, hInactive, hLock, hR]
    | true =>
      simp [pollTickOk, updateUI, hInactive, hLock, hR]
  · intro hUnlock
    simp [pollTickOk, updateUI, hUnlock]

/-- C1 witness: concrete teardown tick (scenario end snapshot on the locked
post-start state) and concrete no-op tick (same snapshot on the unlocked
idle state). -/
theorem c1_termination_teardown_witness :
    ((pollTickOk scenarioEndSnapshot scenarioAfterStart).startDisabled = false ∧
     (pollTickOk scenarioEndSnapshot scenarioAfterStart).poller
       = stopPollingStatus scenarioAfterStart.poller) ∧
    (pollTickOk scenarioEndSnapshot sampleState).downloadDisabled
      = sampleState.downloadDisabled := by
  have h := c1_termination_teardown scenarioEndSnapshot scenarioAfterStart rfl
  have h2 := c1_termination_teardown scenarioEndSnapshot sampleState rfl
  exact ⟨⟨(h.1 rfl).2.1, (h.1 rfl).1⟩, (h2.2 rfl).2.2.1⟩

/-- C8: a successful poll tick whose snapshot has scraping_active true is
exactly updateUI: the three controls, the poller and the results table are
unchanged, whatever the progress values are. -/
theorem c8_active_snapshot_frame (data : StatusSnapshot) (s : AppState)
    (hActive : data.scraping_active = true) :
    pollTickOk data s = updateUI data s ∧
    (pollTickOk data s).startDisabled = s.startDisabled ∧
    (pollTickOk data s).stopDisabled = s.stopDisabled ∧
    (pollTickOk data s).downloadDisabled = s.downloadDisabled ∧
    (pollTickOk data s).poller = s.poller ∧
    (pollTickOk data s).resultsRows = s.resultsRows := by
  refine ⟨?_, ?_, ?_, ?_, ?_, ?_⟩ <;> simp [pollTickOk, updateUI, hActive]

/-- C8 witness: the mid-scenario active snapshot applied to the locked
post-start state changes no control state. -/
theorem c8_active_snapshot_frame_witness :
    pollTickOk scenarioMidSnapshot scenarioAfterStart
      = updateUI scenarioMidSnapshot scenarioAfterStart ∧
    (pollTickOk scenarioMidSnapshot scenarioAfterStart).startDisabled
      = scenarioAfterStart.startDisabled :=
  ⟨(c8_active_snapshot_frame scenarioMidSnapshot scenarioAfterStart rfl).1,
   (c8_active_snapshot_frame scenarioMidSnapshot scenarioAfterStart rfl).2.1⟩

/-- C6: updateUI writes each progress bar label from its own fraction via
percentString, uses the identical string for the bar width, accepts any
rational fraction (in or out of range) and renders a missing or non-numeric
fraction as NaN; for a nonnegative fraction the rendered digits are the
half-up rounding of fraction times 1000 split as tenths (that is, the
value times 100 rounded to one decimal place). -/
theorem c6_progress_rendering (data : StatusSnapshot) (s : AppState) :
    ((updateUI data s).linkBarText
       = percentString data.link_collection_progress ++ "%") ∧
    ((updateUI data s).linkBarWidth = (updateUI data s).linkBarText) ∧
    ((updateUI data s).detailBarText
       = percentString data.detail_scraping_progress ++ "%") ∧
    ((updateUI data s).detailBarWidth = (updateUI data s).detailBarText) ∧
    (∀ q : ℚ, percentString (some q) = jsToFixed1 (q * 100)) ∧
    (percentString none = "NaN") ∧
    (∀ q : ℚ, 0 ≤ q →
      jsToFixed1 q
        = toString ((round (10 * q)).natAbs / 10) ++ "."
            ++ toString ((round (10 * q)).natAbs % 10)) := by
  refine ⟨rfl, rfl, rfl, rfl, fun q => rfl, rfl, ?_⟩
  intro q hq
  have hneg : ¬ q.num < 0 := by
    rw [Int.not_lt]
    exact Rat.num_nonneg.mpr hq
  have hfloor : Rat.floor (10 * q + 1 / 2) = round (10 * q) := by
    rw [round_eq]
    rfl
  rw [← hfloor]
  simp [jsToFixed1, hneg]

/-- C6 witness: the rendered link bar of the scenario end snapshot on the
idle state, and the rounding identity at the concrete fraction zero. -/
theorem c6_progress_rendering_witness :
    (updateUI scenarioEndSnapshot sampleState).linkBarText
      = percentString scenarioEndSnapshot.link_collection_progress ++ "%" ∧
    jsToFixed1 0
      = toString ((round ((10 : ℚ) * 0)).natAbs / 10) ++ "."
          ++ toString ((round ((10 : ℚ) * 0)).natAbs % 10) := by
  have h := c6_progress_rendering scenarioEndSnapshot sampleState
  exact ⟨h.1, h.2.2.2.2.2.2 0 (by norm_num)⟩

/-- C7: a rejected start (non-ok response) or a start transport failure
re-enables start, disables stop, renders the server or generic connectivity
message, and leaves the Poller untouched (never started). -/
theorem c7_start_failure_rollback (f : FormValues) (s : AppState) :
    (∀ msg : String,
      (startClick f (StartOutcome.rejected msg) s).state.startDisabled = false ∧
      (startClick f (StartOutcome.rejected msg) s).state.stopDisabled = true ∧
      (startClick f (StartOutcome.rejected msg) s).state.statusMessage = msg ∧
      (startClick f (StartOutcome.rejected msg) s).state.poller = s.poller) ∧
    ((startClick f StartOutcome.transportError s).state.startDisabled = false ∧
     (startClick f StartOutcome.transportError s).state.stopDisabled = true ∧
     (startClick f StartOutcome.transportError s).state.statusMessage
       = "Failed to start scraping. Check console for errors." ∧
     (startClick f StartOutcome.transportError s).state.poller = s.poller) :=
  ⟨fun _ => ⟨rfl, rfl, rfl, rfl⟩, rfl, rfl, rfl, rfl⟩

/-- C9: a Result Fetcher tick whose fetch or JSON parse threw leaves the
whole page state unchanged, table and download control included; only a
successful tick replaces the rows, with the rendered records. -/
theorem c9_fetch_failure_frame :
    (∀ s : AppState, fetchResultsTick none s = s) ∧
    (∀ (s : AppState) (results : List ResultRecord),
      (fetchResultsTick (some results) s).resultsRows = results.map renderRow) := by
  constructor
  · intro s
    rfl
  · intro s results
    by_cases h : 0 < results.length
    · simp [fetchResultsTick, h]
    · simp [fetchResultsTick, h]

/-- C10: the start click clears the results table and disables the download
control before the request is issued (startClickPre, the state passed to the
fetch); on rejection or transport failure the start/stop controls return to
their pre-click values while the table stays cleared and the download
control stays disabled; the request body is always the built config. -/
theorem c10_start_click_clears_table (f : FormValues) (s : AppState)
    (h1 : s.startDisabled = false) (h2 : s.stopDisabled = true) :
    ((startClickPre s).resultsRows = [] ∧
     (startClickPre s).downloadDisabled = true) ∧
    (∀ msg : String,
      (startClick f (StartOutcome.rejected msg) s).state.startDisabled = s.startDisabled ∧
      (startClick f (StartOutcome.rejected msg) s).state.stopDisabled = s.stopDisabled ∧
      (startClick f (StartOutcome.rejected msg) s).state.resultsRows = [] ∧
      (startClick f (StartOutcome.rejected msg) s).state.downloadDisabled = true) ∧
    ((startClick f StartOutcome.transportError s).state.startDisabled = s.startDisabled ∧
     (startClick f StartOutcome.transportError s).state.stopDisabled = s.stopDisabled ∧
     (startClick f StartOutcome.transportError s).state.resultsRows = [] ∧
     (startClick f StartOutcome.transportError s).state.downloadDisabled = true) ∧
    (∀ o : StartOutcome, (startClick f o s).requestBody = some (buildConfig f)) := by
  refine ⟨⟨rfl, rfl⟩, ?_, ?_, ?_⟩
  · intro msg
    exact ⟨by rw [h1]; rfl, by rw [h2]; rfl, rfl, rfl⟩
  · exact ⟨by rw [h1]; rfl, by rw [h2]; rfl, rfl, rfl⟩
  · intro o
    cases o <;> rfl

/-- C10 witness: the scenario form on the idle page, with the request
failing in transport. -/
theorem c10_start_click_clears_table_witness :
    (startClick scenarioFields StartOutcome.transportError sampleState).state.resultsRows = [] ∧
    (startClick scenarioFields StartOutcome.transportError sampleState).state.startDisabled
      = sampleState.startDisabled := by
  have h := c10_start_click_clears_table scenarioFields sampleState rfl rfl
  exact ⟨h.2.2.1.2.2.1, h.2.2.1.1⟩

/-- C2 counterexample: in the spec run scenario the second tick snapshot is
active false with scraped_count 3 and no results_df; the claimed outcome
(stop disabled, start enabled, download enabled, Poller stopped) does not
hold, because the download control stays disabled. -/
theorem c2_scenario_counterexample :
    ¬ ((pollTickOk scenarioEndSnapshot scenarioAfterStart).stopDisabled = true ∧
       (pollTickOk scenarioEndSnapshot scenarioAfterStart).startDisabled = false ∧
       (pollTickOk scenarioEndSnapshot scenarioAfterStart).downloadDisabled = false ∧
       (pollTickOk scenarioEndSnapshot scenarioAfterStart).poller.live = []) := by
  decide

/-- C2 amended: on that tick stop is disabled, start is enabled and the
Poller is stopped, but the download control remains disabled: the teardown
enables download only when the snapshot carries a non-empty results_df, and
this snapshot has none (scraped_count is not consulted). -/
theorem c2_scenario_amended :
    (pollTickOk scenarioEndSnapshot scenarioAfterStart).stopDisabled = true ∧
    (pollTickOk scenarioEndSnapshot scenarioAfterStart).startDisabled = false ∧
    (pollTickOk scenarioEndSnapshot scenarioAfterStart).downloadDisabled = true ∧
    (pollTickOk scenarioEndSnapshot scenarioAfterStart).poller
      = stopPollingStatus scenarioAfterStart.poller := by
  decide

/-- C3 counterexample: with non-numeric text in all four numeric inputs the
handler still issues the start request; the parses yield NaN (none) and no
client-side rejection exists. -/
theorem c3_validation_counterexample :
    (buildConfig nonNumericFields).max_workers = none ∧
    (buildConfig nonNumericFields).max_scrolls = none ∧
    (buildConfig nonNumericFields).scroll_pause = none ∧
    (buildConfig nonNumericFields).scrape_timeout = none ∧
    ¬ ((startClick nonNumericFields (StartOutcome.accepted "ok") sampleState).requestBody
        = none) := by
  decide

/-- C3 amended: the start click performs no numeric validation; for every
form content and every outcome the request is issued, its body being the
config whose numeric fields are the parseInt/parseFloat results (NaN, that
is none, when non-numeric). -/
theorem c3_request_always_issued (f : FormValues) (o : StartOutcome) (s : AppState) :
    (startClick f o s).requestBody = some (buildConfig f) := by
  cases o <;> rfl

/-- C4 counterexample: a stop click whose request fails in transport leaves
the stop control enabled (the catch only renders a message), refuting the
claim that the stop control is disabled on any outcome. -/
theorem c4_stop_transport_counterexample :
    ¬ ((stopClick StopOutcome.transportError midJobState).stopDisabled = true) := by
  decide

/-- C4 amended: on any received response whose body parses (success or
failure alike) the stop click disables the stop control immediately and
renders the server message; on transport failure it renders the generic
failure message and leaves the stop control unchanged. -/
theorem c4_stop_click_amended :
    (∀ (msg : String) (s : AppState),
      (stopClick (StopOutcome.response msg) s).stopDisabled = true ∧
      (stopClick (StopOutcome.response msg) s).statusMessage = msg) ∧
    (∀ s : AppState,
      (stopClick StopOutcome.transportError s).stopDisabled = s.stopDisabled ∧
      (stopClick StopOutcome.transportError s).statusMessage
        = "Failed to send stop signal.") :=
  ⟨fun _ _ => ⟨rfl, rfl⟩, fun _ => ⟨rfl, rfl⟩⟩

end FlaskApp
